import Mathlib

/-!
Verification of the yieldera-alerts monitoring engine.

The JavaScript source is embedded shallowly: numeric observations are
modelled as `Option ℚ`, where `none` stands for a NaN or undefined
JavaScript value (both compare false against every number in JS, and
`Math.abs(NaN - t)` is NaN, which also compares false).  Database reads
are passed in explicitly as lists or options; timestamps are integers in
milliseconds, matching JavaScript Date arithmetic.
-/

/-- JavaScript comparison `a < b` where `a` may be NaN or undefined:
NaN compares false against everything. -/
def jsLt (a : Option ℚ) (b : ℚ) : Bool :=
  match a with
  | some x => decide (x < b)
  | none => false

/-- JavaScript comparison `a > b` with NaN or undefined on the left. -/
def jsGt (a : Option ℚ) (b : ℚ) : Bool :=
  match a with
  | some x => decide (x > b)
  | none => false

/-- JavaScript comparison `a >= b` with NaN or undefined on the left. -/
def jsGe (a : Option ℚ) (b : ℚ) : Bool :=
  match a with
  | some x => decide (x ≥ b)
  | none => false

/-- JavaScript comparison `a <= b` with NaN or undefined on the left. -/
def jsLe (a : Option ℚ) (b : ℚ) : Bool :=
  match a with
  | some x => decide (x ≤ b)
  | none => false

/-- JavaScript test `Math.abs(a - t) < eps`: NaN propagates through the
subtraction and absolute value, and the final comparison is then false. -/
def jsAbsDiffLt (a : Option ℚ) (t eps : ℚ) : Bool :=
  match a with
  | some x => decide (|x - t| < eps)
  | none => false

/-- src/alertMonitor.js, `checkCondition(alert, currentValue)`.
The alert fields `conditionType`, `thresholdValue` and
`secondThresholdValue` are passed explicitly.  The `equals` case in the
source is `Math.abs(currentValue - alert.thresholdValue) < 0.1`, a
strict comparison. -/
def checkCondition (conditionType : String) (currentValue : Option ℚ)
    (thresholdValue secondThresholdValue : ℚ) : Bool :=
  match conditionType with
  | "lessThan" => jsLt currentValue thresholdValue
  | "greaterThan" => jsGt currentValue thresholdValue
  | "equals" => jsAbsDiffLt currentValue thresholdValue (1/10)
  | "between" =>
      jsGe currentValue thresholdValue && jsLe currentValue secondThresholdValue
  | _ => false

/-- src/unnamed/part_017, `isConditionMet(value, condition, threshold,
tolerance = 0.1)`.  This variant guards explicitly against null,
undefined and NaN values, and its `equal_to` case uses a non-strict
`<= tolerance` comparison. -/
def isConditionMet17 (value : Option ℚ) (condition : String)
    (threshold : ℚ) (tolerance : ℚ := 1/10) : Bool :=
  match value with
  | none => false
  | some v =>
      match condition with
      | "greater_than" => decide (v > threshold)
      | "less_than" => decide (v < threshold)
      | "equal_to" => decide (|v - threshold| ≤ tolerance)
      | _ => false

/-- src/unnamed/part_019, `isConditionMet(value, condition, threshold)`.
No NaN guard; the `equal_to` case is the strict
`Math.abs(value - threshold) < 0.1`. -/
def isConditionMet19 (value : Option ℚ) (condition : String)
    (threshold : ℚ) : Bool :=
  match condition with
  | "greater_than" => jsGt value threshold
  | "less_than" => jsLt value threshold
  | "equal_to" => jsAbsDiffLt value threshold (1/10)
  | _ => false

/-- src/alertMonitor.js, `getNDVI(field)` reduced to its data flow: the
query result for the latest NDVI measurement is a list of values; a
non-empty result returns its first value, an empty result falls back to
the default 0.5. -/
def getNDVI (ndviRecord : List ℚ) : ℚ :=
  match ndviRecord with
  | v :: _ => v
  | [] => 1/2

/-- src/alertMonitor.js, `checkPersistence(alert, currentValue)`: the
query reads the most recent check records limited to
`alert.durationHours` rows (here `allChecks.take durationHours` with
`allChecks` ordered newest first); if fewer rows than `durationHours`
arrive the condition has not persisted, otherwise every row must have
`condition_met`. -/
def checkPersistence (allChecks : List Bool) (durationHours : Nat) : Bool :=
  let history := allChecks.take durationHours
  if history.length < durationHours then false
  else history.all (fun c => c)

/-- One row of the alert_checks table as read by
`checkNotificationFrequency`. -/
structure CheckRow where
  timestamp : Int
  conditionMet : Bool
deriving DecidableEq, Repr

/-- src/alertMonitor.js, `checkNotificationFrequency(alert)`.  The
latest alert_triggers row is `latestTrigger` (its timestamp, none when
no trigger exists); `checks` is the alert_checks table for this alert;
`now` is the current time in milliseconds.  The `once` case counts
checks strictly after the last trigger with `condition_met = false`;
`hourly` and `daily` compare elapsed milliseconds against fixed
constants. -/
def checkNotificationFrequency (notificationFrequency : String)
    (latestTrigger : Option Int) (now : Int) (checks : List CheckRow) : Bool :=
  match latestTrigger with
  | none => true
  | some lastTriggerTime =>
      match notificationFrequency with
      | "once" =>
          (checks.filter
            (fun c => decide (c.timestamp > lastTriggerTime) && !c.conditionMet)).length > 0
      | "hourly" => decide (now - lastTriggerTime ≥ 60 * 60 * 1000)
      | "daily" => decide (now - lastTriggerTime ≥ 24 * 60 * 60 * 1000)
      | _ => true

/-- src/unnamed/part_019, lines 403-415 inside `checkAlerts`: the
frequency gate of that variant.  `shouldSend` starts true and the gate
body runs only when a prior trigger exists AND the frequency is not
`once` — so `once` is excluded from the gate entirely and shouldSend
stays true; `hourly` and `daily` compare `hoursDiff` against 1 and 24,
written here in milliseconds (`hoursDiff < 1` iff
`now - lastTriggered < 3600000`, division by the positive constant
being exact). -/
def shouldSend19 (notificationFrequency : String)
    (lastTriggered : Option Int) (now : Int) : Bool :=
  match lastTriggered with
  | none => true
  | some lastTime =>
      if notificationFrequency = "once" then true
      else if notificationFrequency = "hourly" ∧ now - lastTime < 60 * 60 * 1000 then
        false
      else if notificationFrequency = "daily" ∧ now - lastTime < 24 * 60 * 60 * 1000 then
        false
      else true

/-- C1: For every operator (greater-than, less-than, equal-to, between)
and every threshold, the condition evaluator applied to a NaN or
undefined observed value returns false and never throws.  Both
evaluators are total functions here, mirroring that JS numeric
comparison cannot throw; `none` encodes NaN/undefined, and every
operator string (the four real ones and any other) yields false. -/
theorem c1_condition_evaluator_nan_false (op : String)
    (threshold secondThreshold tolerance : ℚ) :
    checkCondition op none threshold secondThreshold = false ∧
    isConditionMet17 none op threshold tolerance = false ∧
    isConditionMet19 none op threshold = false := by
  refine ⟨?_, rfl, ?_⟩
  · unfold checkCondition
    split <;> simp [jsLt, jsGt, jsGe, jsLe, jsAbsDiffLt]
  · unfold isConditionMet19
    split <;> simp [jsLt, jsGt, jsAbsDiffLt]

/-- C2: the persistence check is false on insufficient history, false
when a full window contains a record with condition-met false, and true
when the full window is all condition-met. -/
theorem c2_persistence (allChecks : List Bool) (n : Nat) :
    (allChecks.length < n → checkPersistence allChecks n = false) ∧
    (n ≤ allChecks.length → false ∈ allChecks.take n →
        checkPersistence allChecks n = false) ∧
    (n ≤ allChecks.length → (∀ c ∈ allChecks.take n, c = true) →
        checkPersistence allChecks n = true) := by
  refine ⟨?_, ?_, ?_⟩
  · intro h
    have hlt : (allChecks.take n).length < n := by
      simp only [List.length_take]
      omega
    simp only [checkPersistence, hlt, if_true, if_pos]
  · intro h hmem
    have hge : ¬ (allChecks.take n).length < n := by
      simp only [List.length_take]
      omega
    simp only [checkPersistence, hge, if_false, List.all_eq_false]
    exact ⟨false, hmem, by simp⟩
  · intro h hall
    have hge : ¬ (allChecks.take n).length < n := by
      simp only [List.length_take]
      omega
    simp only [checkPersistence, hge, if_false, List.all_eq_true]
    exact hall

/-- Witness for c2_persistence at concrete histories of window size 3. -/
theorem c2_persistence_witness :
    checkPersistence [true, true] 3 = false ∧
    checkPersistence [true, false, true] 3 = false ∧
    checkPersistence [true, true, true] 3 = true :=
  ⟨(c2_persistence [true, true] 3).1 (by decide),
   (c2_persistence [true, false, true] 3).2.1 (by decide) (by decide),
   (c2_persistence [true, true, true] 3).2.2 (by decide) (by decide)⟩

/-- C3 counterexample: at the part_019 checkAlerts site, frequency
`once` is excluded from the gate, so with a prior trigger at time 100
and no check at all recording condition-met false afterwards, the
variant still notifies at time 200 — the claimed "only if a reset was
recorded" direction is false there. -/
theorem c3_once_no_reset_counterexample :
    shouldSend19 "once" (some 100) 200 = true ∧
    ¬ ∃ c ∈ ([] : List CheckRow), c.timestamp > 100 ∧ c.conditionMet = false := by
  constructor
  · rfl
  · simp

/-- C3 amended: in alertMonitor.js, under frequency once with a prior
trigger at time t the policy notifies iff some check after t recorded
condition-met false, and with no prior trigger it always notifies; the
part_019 checkAlerts variant instead excludes `once` from its frequency
gate, so there shouldSend is unconditionally true and the alert
re-notifies on every cycle the condition is met, with no reset
required. -/
theorem c3_once_frequency_variants (latestTrigger : Option Int) (now : Int)
    (checks : List CheckRow) :
    (latestTrigger = none →
        checkNotificationFrequency "once" latestTrigger now checks = true) ∧
    (∀ t, latestTrigger = some t →
        (checkNotificationFrequency "once" latestTrigger now checks = true ↔
          ∃ c ∈ checks, c.timestamp > t ∧ c.conditionMet = false)) ∧
    shouldSend19 "once" latestTrigger now = true := by
  refine ⟨?_, ?_, ?_⟩
  · intro h
    subst h
    rfl
  · intro t h
    subst h
    unfold checkNotificationFrequency
    simp only [decide_eq_true_iff, gt_iff_lt]
    rw [Nat.pos_iff_ne_zero, Ne, List.length_eq_zero, List.filter_eq_nil_iff]
    push_neg
    constructor
    · rintro ⟨c, hc, hp⟩
      simp only [Bool.and_eq_true, decide_eq_true_iff, Bool.not_eq_true'] at hp
      exact ⟨c, hc, hp.1, hp.2⟩
    · rintro ⟨c, hc, h1, h2⟩
      refine ⟨c, hc, ?_⟩
      simp only [Bool.and_eq_true, decide_eq_true_iff, Bool.not_eq_true']
      exact ⟨h1, h2⟩
  · cases latestTrigger <;> rfl

/-- Witness for c3_once_frequency_variants: one check after the trigger
with condition-met false makes the alertMonitor.js policy notify, while
the part_019 gate is already true with no reset recorded. -/
theorem c3_once_frequency_variants_witness :
    checkNotificationFrequency "once" none 0 [] = true ∧
    (checkNotificationFrequency "once" (some 100) 0 [⟨150, false⟩] = true ↔
      ∃ c ∈ [(⟨150, false⟩ : CheckRow)], c.timestamp > 100 ∧ c.conditionMet = false) ∧
    shouldSend19 "once" (some 100) 0 = true :=
  ⟨(c3_once_frequency_variants none 0 []).1 rfl,
   (c3_once_frequency_variants (some 100) 0 [⟨150, false⟩]).2.1 100 rfl,
   (c3_once_frequency_variants (some 100) 0 []).2.2⟩

/-- C4: with a prior trigger at time t, hourly notifies iff at least one
hour (3600000 ms) elapsed and daily iff at least 24 hours elapsed; in
particular hourly is false at t plus 59 minutes and true at t plus 61
minutes. -/
theorem c4_hourly_daily (t now : Int) (checks : List CheckRow) :
    (checkNotificationFrequency "hourly" (some t) now checks = true ↔
        now - t ≥ 60 * 60 * 1000) ∧
    (checkNotificationFrequency "daily" (some t) now checks = true ↔
        now - t ≥ 24 * 60 * 60 * 1000) ∧
    checkNotificationFrequency "hourly" (some t) (t + 59 * 60 * 1000) checks = false ∧
    checkNotificationFrequency "hourly" (some t) (t + 61 * 60 * 1000) checks = true := by
  unfold checkNotificationFrequency
  refine ⟨by simp, by simp, ?_, ?_⟩
  · simp only [decide_eq_false_iff_not, ge_iff_le, not_le]
    omega
  · simp only [decide_eq_true_iff, ge_iff_le]
    omega

/-- C7 counterexample: the claim says a value at exactly threshold plus
0.1 satisfies the equal-to operator (tolerance at most 0.1 inclusive),
but `checkCondition` in alertMonitor.js compares strictly:
at value 1/10 and threshold 0 the absolute difference equals the
tolerance, yet the evaluator returns false. -/
theorem c7_equals_boundary_counterexample :
    checkCondition "equals" (some (1/10)) 0 0 = false ∧
    |(1/10 : ℚ) - 0| ≤ 1/10 := by
  constructor
  · simp only [checkCondition, jsAbsDiffLt, decide_eq_false_iff_not, not_lt, sub_zero]
    rw [abs_of_nonneg (by norm_num)]
  · rw [sub_zero, abs_of_nonneg (by norm_num)]

/-- C7 amended: the equal-to operator of `checkCondition`
(alertMonitor.js) and of the part_019 evaluator holds iff the absolute
difference is strictly below 0.1, so threshold plus or minus 0.05
satisfies it, while exactly threshold plus or minus 0.1 and threshold
plus or minus 0.11 do not; only the part_017 evaluator compares
non-strictly, so there exactly threshold plus or minus 0.1 satisfies
it. -/
theorem c7_equals_tolerance (v t t2 tolerance : ℚ) :
    checkCondition "equals" (some v) t t2 = decide (|v - t| < 1/10) ∧
    isConditionMet19 (some v) "equal_to" t = decide (|v - t| < 1/10) ∧
    isConditionMet17 (some v) "equal_to" t tolerance = decide (|v - t| ≤ tolerance) ∧
    checkCondition "equals" (some (t + 1/20)) t t2 = true ∧
    checkCondition "equals" (some (t - 1/20)) t t2 = true ∧
    checkCondition "equals" (some (t + 11/100)) t t2 = false ∧
    checkCondition "equals" (some (t + 1/10)) t t2 = false ∧
    isConditionMet17 (some (t + 1/10)) "equal_to" t (1/10) = true := by
  refine ⟨rfl, rfl, rfl, ?_, ?_, ?_, ?_, ?_⟩ <;>
    · simp only [checkCondition, jsAbsDiffLt, isConditionMet17, add_sub_cancel_left,
        sub_sub_cancel_left, decide_eq_true_iff, decide_eq_false_iff_not, abs_neg]
      norm_num [abs_of_nonneg, abs_of_nonpos]

/-- C8: the between operator holds iff the value is at least the first
threshold and at most the second; both boundary values satisfy it
whenever the bounds are ordered. -/
theorem c8_between_conjunction (v t1 t2 : ℚ) :
    (checkCondition "between" (some v) t1 t2 = true ↔ t1 ≤ v ∧ v ≤ t2) ∧
    (t1 ≤ t2 →
      checkCondition "between" (some t1) t1 t2 = true ∧
      checkCondition "between" (some t2) t1 t2 = true) := by
  constructor
  · simp [checkCondition, jsGe, jsLe, ge_iff_le]
  · intro h
    constructor <;> simp [checkCondition, jsGe, jsLe, h]

/-- Witness for c8_between_conjunction at ordered bounds 3 and 7. -/
theorem c8_between_conjunction_witness :
    (checkCondition "between" (some 5) 3 7 = true ↔ (3:ℚ) ≤ 5 ∧ (5:ℚ) ≤ 7) ∧
    (checkCondition "between" (some 3) 3 7 = true ∧
     checkCondition "between" (some 7) 3 7 = true) :=
  ⟨(c8_between_conjunction 5 3 7).1,
   (c8_between_conjunction 5 3 7).2 (by norm_num)⟩

/-- C10: with no NDVI measurement for the field, `getNDVI` returns the
fixed default 0.5, and a vegetation-index alert with condition
less-than 0.6 is then satisfied by that default with no real
observation. -/
theorem c10_ndvi_default_triggers :
    getNDVI [] = 1/2 ∧
    checkCondition "lessThan" (some (getNDVI [])) (6/10) 0 = true := by
  constructor
  · rfl
  · simp only [getNDVI, checkCondition, jsLt, decide_eq_true_iff]
    norm_num

/-- One row of the alert_triggers table as written by
`logAlertTrigger`. -/
structure TriggerRow where
  alertId : Nat
  value : ℚ
  notificationSent : Bool
deriving DecidableEq, Repr

/-- Database and transport state touched by `triggerAlert` in
src/alertMonitor.js: the alert_triggers table, the last_triggered
column of the alert, and counters of successfully delivered emails and
SMS messages. -/
structure MonitorState where
  alertTriggers : List TriggerRow
  lastTriggered : Option Int
  emailsDelivered : Nat
  smsDelivered : Nat
deriving DecidableEq, Repr

/-- src/alertMonitor.js, `sendEmailNotification(alert, message)`: with
no valid recipients it returns early; otherwise the send either
succeeds (`emailOk`) and returns true, or the error is caught and it
returns false.  Either way the database state is untouched. -/
def sendEmailNotificationM (recipients : List String) (emailOk : Bool)
    (s : MonitorState) : MonitorState × Bool :=
  if recipients.isEmpty then (s, false)
  else if emailOk then ({ s with emailsDelivered := s.emailsDelivered + 1 }, true)
  else (s, false)

/-- src/alertMonitor.js, `sendSMSNotification(alert, message)`: sends
one message per number when the client call succeeds; a thrown error is
caught and false returned. -/
def sendSMSNotificationM (phoneNumbers : List String) (smsOk : Bool)
    (s : MonitorState) : MonitorState × Bool :=
  if phoneNumbers.isEmpty then (s, false)
  else if smsOk then
    ({ s with smsDelivered := s.smsDelivered + phoneNumbers.length }, true)
  else (s, false)

/-- src/alertMonitor.js, `logAlertTrigger(alertId, value)`: inserts an
alert_triggers row with notification_sent hardcoded to true and
unconditionally updates the last_triggered column. -/
def logAlertTrigger (alertId : Nat) (value : ℚ) (now : Int)
    (s : MonitorState) : MonitorState :=
  { s with
    alertTriggers := ⟨alertId, value, true⟩ :: s.alertTriggers,
    lastTriggered := some now }

/-- src/alertMonitor.js, `triggerAlert(alert, field, currentValue)`:
after the frequency gate, sends email and SMS when configured (their
boolean results are discarded by the caller), then always calls
`logAlertTrigger`.  The send outcomes `emailOk` and `smsOk` stand for
success or a caught transport failure. -/
def triggerAlert (shouldNotify : Bool)
    (emailConfigured : Bool) (recipients : List String) (emailOk : Bool)
    (smsConfigured : Bool) (phoneNumbers : List String) (smsOk : Bool)
    (alertId : Nat) (value : ℚ) (now : Int) (s : MonitorState) : MonitorState :=
  if !shouldNotify then s
  else
    let s1 := if emailConfigured then (sendEmailNotificationM recipients emailOk s).1 else s
    let s2 := if smsConfigured then (sendSMSNotificationM phoneNumbers smsOk s1).1 else s1
    logAlertTrigger alertId value now s2

/-- State touched by the part_019 monitor around a notification:
last_triggered in the database and the in-memory cooldown cache
entry for the alert. -/
structure Monitor19State where
  lastTriggered : Option Int
  cooldownSetAt : Option Int
deriving DecidableEq, Repr

/-- src/unnamed/part_019, `sendEmailNotification(alert, field,
weatherValue)`: with no recipients it returns early; on a successful
send it updates last_triggered and sets the cooldown; a thrown send
error is caught and leaves both untouched. -/
def sendEmailNotification19 (recipients : List String) (sendOk : Bool)
    (now : Int) (s : Monitor19State) : Monitor19State :=
  if recipients.isEmpty then s
  else if sendOk then { lastTriggered := some now, cooldownSetAt := some now }
  else s

/-- C5 counterexample: with every channel send failing (emailOk and
smsOk both false, so no message is delivered), alertMonitor.js still
writes the trigger row with notification_sent = true and still updates
last_triggered, contradicting the claim that the row carries
notification_sent = false and that the triggering state is left
unchanged. -/
theorem c5_dispatch_failure_counterexample :
    (triggerAlert true true ["farmer@example.com"] false true ["+263771234567"] false
        1 36 1000 ⟨[], none, 0, 0⟩).alertTriggers = [⟨1, 36, true⟩] ∧
    (triggerAlert true true ["farmer@example.com"] false true ["+263771234567"] false
        1 36 1000 ⟨[], none, 0, 0⟩).lastTriggered = some 1000 ∧
    (triggerAlert true true ["farmer@example.com"] false true ["+263771234567"] false
        1 36 1000 ⟨[], none, 0, 0⟩).emailsDelivered = 0 ∧
    (triggerAlert true true ["farmer@example.com"] false true ["+263771234567"] false
        1 36 1000 ⟨[], none, 0, 0⟩).smsDelivered = 0 ∧
    ¬ ((triggerAlert true true ["farmer@example.com"] false true ["+263771234567"] false
        1 36 1000 ⟨[], none, 0, 0⟩).alertTriggers.all
          (fun r => !r.notificationSent) = true ∧
       (triggerAlert true true ["farmer@example.com"] false true ["+263771234567"] false
        1 36 1000 ⟨[], none, 0, 0⟩).lastTriggered = none) := by
  refine ⟨rfl, rfl, rfl, rfl, ?_⟩
  rintro ⟨h, -⟩
  simp [triggerAlert, sendEmailNotificationM, sendSMSNotificationM, logAlertTrigger] at h

/-- C5 amended: in alertMonitor.js, when every channel send fails for a
triggered alert, no message is delivered, yet an alert_triggers row is
still written with notification_sent hardcoded to true and
last_triggered is updated unconditionally; only the part_019 monitor
ties state to delivery, updating last_triggered and the cooldown
exactly when the email send succeeds and leaving them unchanged on a
send failure. -/
theorem c5_dispatch_failure_behavior (recipients phoneNumbers : List String)
    (alertId : Nat) (value : ℚ) (now : Int) (s : MonitorState)
    (s19 : Monitor19State) (r : String) (rs : List String) (now19 : Int) :
    (triggerAlert true true recipients false true phoneNumbers false
        alertId value now s).alertTriggers = ⟨alertId, value, true⟩ :: s.alertTriggers ∧
    (triggerAlert true true recipients false true phoneNumbers false
        alertId value now s).lastTriggered = some now ∧
    (triggerAlert true true recipients false true phoneNumbers false
        alertId value now s).emailsDelivered = s.emailsDelivered ∧
    (triggerAlert true true recipients false true phoneNumbers false
        alertId value now s).smsDelivered = s.smsDelivered ∧
    sendEmailNotification19 (r :: rs) false now19 s19 = s19 ∧
    sendEmailNotification19 (r :: rs) true now19 s19 =
      ⟨some now19, some now19⟩ := by
  refine ⟨?_, ?_, ?_, ?_, rfl, rfl⟩ <;>
    by_cases he : recipients.isEmpty <;> by_cases hp : phoneNumbers.isEmpty <;>
      simp [triggerAlert, sendEmailNotificationM, sendSMSNotificationM,
        logAlertTrigger, he, hp]

/-- Result of evaluating one alert inside `processAlert`: the fetched
value and its condition outcome on success, or none when an error was
caught (unknown alert type, upstream failure). -/
def getCurrentValue (fetch : String → Except String ℚ) (alertType : String) :
    Except String ℚ :=
  match alertType with
  | "temperature" => fetch "temperature"
  | "rainfall" => fetch "rainfall"
  | "ndvi" => fetch "ndvi"
  | "wind" => fetch "wind"
  | _ => Except.error ("Unknown alert type: " ++ alertType)

/-- Alert definition fields used by `processAlert`. -/
structure AlertDef where
  id : Nat
  alertType : String
  conditionType : String
  thresholdValue : ℚ
  secondThresholdValue : ℚ
deriving Repr

/-- src/alertMonitor.js, `processAlert(alert)` reduced to its
evaluation core: the whole body is wrapped in try/catch, so a thrown
error (from the upstream fetch or an unknown alert type) is caught and
logged, yielding none; otherwise the condition outcome for the alert is
produced. -/
def processAlert (fetch : String → Except String ℚ) (a : AlertDef) :
    Option (ℚ × Bool) :=
  match getCurrentValue fetch a.alertType with
  | Except.error _ => none
  | Except.ok v =>
      some (v, checkCondition a.conditionType (some v) a.thresholdValue a.secondThresholdValue)

/-- src/alertMonitor.js, `checkAllAlerts()`: iterates over every active
alert, calling `processAlert` for each; since `processAlert` catches
its own errors, the loop always reaches every alert and the cycle
completes with one outcome per alert. -/
def checkAllAlerts (fetch : String → Except String ℚ) (alerts : List AlertDef) :
    List (Nat × Option (ℚ × Bool)) :=
  alerts.map (fun a => (a.id, processAlert fetch a))

/-- C6: an error while evaluating one alert in a batch is confined to
that alert: the cycle still produces exactly one outcome per alert, and
the outcomes before and after the failing alert are exactly what each
alert yields on its own, independent of the erroneous one (replacing
the middle alert by any other changes nothing else). -/
theorem c6_error_isolation (fetch : String → Except String ℚ)
    (pre post : List AlertDef) (a : AlertDef) :
    checkAllAlerts fetch (pre ++ a :: post) =
      checkAllAlerts fetch pre ++ (a.id, processAlert fetch a) :: checkAllAlerts fetch post ∧
    (checkAllAlerts fetch (pre ++ a :: post)).length = pre.length + 1 + post.length := by
  constructor
  · simp [checkAllAlerts]
  · simp [checkAllAlerts]
    omega

/-- Fixed quota of the weather API limiter in src/unnamed/part_019
(`weatherApiLimiter.limit`). -/
def weatherApiLimit : Nat := 100

/-- Length of the limiter window in milliseconds
(`weatherApiLimiter.window`). -/
def weatherApiWindow : Int := 60 * 60 * 1000

/-- Weather cache TTL in milliseconds (`WEATHER_CACHE_TTL`). -/
def weatherCacheTtl : Int := 10 * 60 * 1000

/-- Mutable state of `weatherApiLimiter` in src/unnamed/part_019. -/
structure WeatherApiLimiter where
  calls : Nat
  lastReset : Int
deriving DecidableEq, Repr

/-- src/unnamed/part_019, `canMakeWeatherApiCall()`: when more than the
window has elapsed since the last reset the counter is cleared and the
reset time moved to now; then the call is denied if the counter has
reached the limit, otherwise the counter is incremented and the call
granted. -/
def canMakeWeatherApiCall (now : Int) (l : WeatherApiLimiter) :
    Bool × WeatherApiLimiter :=
  let l1 := if now - l.lastReset > weatherApiWindow then ⟨0, now⟩ else l
  if l1.calls ≥ weatherApiLimit then (false, l1)
  else (true, { l1 with calls := l1.calls + 1 })

/-- Sequential execution of `canMakeWeatherApiCall` at the given times,
threading the limiter state and collecting the grant decisions. -/
def runWeatherApiCalls (times : List Int) (l : WeatherApiLimiter) :
    List Bool × WeatherApiLimiter :=
  match times with
  | [] => ([], l)
  | t :: ts =>
      let p := canMakeWeatherApiCall t l
      let q := runWeatherApiCalls ts p.2
      (p.1 :: q.1, q.2)

/-- Freshness test `cached && now - cached.timestamp < WEATHER_CACHE_TTL`
on the cache entry for one location. -/
def cachedFresh (now : Int) (cached : Option (ℚ × Int)) : Bool :=
  match cached with
  | some (_, ts) => decide (now - ts < weatherCacheTtl)
  | none => false

/-- JavaScript expression `cached ? cached.data : null`. -/
def cachedData (cached : Option (ℚ × Int)) : Option ℚ :=
  cached.map Prod.fst

/-- src/unnamed/part_019, `getCachedWeather(latitude, longitude)` for a
single location key: a fresh cache entry is returned directly; when the
limiter denies the call, the cached data is returned even if expired
(null when nothing is cached); otherwise the provider is consulted
(`fetchOutcome`: a thrown error, a null result, or a weather value) and
a non-null result also refreshes the cache entry.  The result triple is
the returned data, the limiter state and the cache entry afterwards. -/
def getCachedWeather (now : Int) (cached : Option (ℚ × Int))
    (l : WeatherApiLimiter) (fetchOutcome : Except Unit (Option ℚ)) :
    Option ℚ × WeatherApiLimiter × Option (ℚ × Int) :=
  if cachedFresh now cached then (cachedData cached, l, cached)
  else
    let p := canMakeWeatherApiCall now l
    if !p.1 then (cachedData cached, p.2, cached)
    else
      match fetchOutcome with
      | Except.error _ => (cachedData cached, p.2, cached)
      | Except.ok none => (none, p.2, cached)
      | Except.ok (some w) => (some w, p.2, some (w, now))

theorem canMakeWeatherApiCall_denied (now : Int) (l : WeatherApiLimiter)
    (h1 : ¬ now - l.lastReset > weatherApiWindow)
    (h2 : weatherApiLimit ≤ l.calls) :
    canMakeWeatherApiCall now l = (false, l) := by
  simp [canMakeWeatherApiCall, h1, h2]

theorem canMakeWeatherApiCall_granted (now : Int) (l : WeatherApiLimiter)
    (h1 : ¬ now - l.lastReset > weatherApiWindow)
    (h2 : l.calls < weatherApiLimit) :
    canMakeWeatherApiCall now l = (true, ⟨l.calls + 1, l.lastReset⟩) := by
  obtain ⟨c, r⟩ := l
  simp only [canMakeWeatherApiCall, h1, if_false, ge_iff_le] at h2 ⊢
  simp [not_le.mpr h2]

theorem canMakeWeatherApiCall_reset (now : Int) (l : WeatherApiLimiter)
    (h1 : now - l.lastReset > weatherApiWindow) :
    canMakeWeatherApiCall now l = (true, ⟨1, now⟩) := by
  simp [canMakeWeatherApiCall, h1, weatherApiLimit]

theorem runWeatherApiCalls_cons (t : Int) (ts : List Int)
    (l : WeatherApiLimiter) :
    runWeatherApiCalls (t :: ts) l =
      ((canMakeWeatherApiCall t l).1 ::
        (runWeatherApiCalls ts (canMakeWeatherApiCall t l).2).1,
       (runWeatherApiCalls ts (canMakeWeatherApiCall t l).2).2) := rfl

/-- Within one window (no acquire time far enough past the last reset
to cause a reset), the number of granted calls never exceeds the
remaining quota. -/
theorem runWeatherApiCalls_grant_bound (times : List Int) :
    ∀ (l : WeatherApiLimiter),
      (∀ t ∈ times, t - l.lastReset ≤ weatherApiWindow) →
      (runWeatherApiCalls times l).1.count true ≤ weatherApiLimit - l.calls := by
  induction times with
  | nil =>
      intro l _
      simp [runWeatherApiCalls]
  | cons t ts ih =>
      intro l h
      have ht : ¬ t - l.lastReset > weatherApiWindow :=
        not_lt.mpr (h t (by simp))
      by_cases hc : l.calls < weatherApiLimit
      · have hcons : runWeatherApiCalls (t :: ts) l =
            (true :: (runWeatherApiCalls ts ⟨l.calls + 1, l.lastReset⟩).1,
             (runWeatherApiCalls ts ⟨l.calls + 1, l.lastReset⟩).2) := by
          rw [runWeatherApiCalls_cons, canMakeWeatherApiCall_granted t l ht hc]
        rw [hcons]
        have hih := ih ⟨l.calls + 1, l.lastReset⟩ (fun u hu => h u (by simp [hu]))
        simp only [List.count_cons] at hih ⊢
        simp only [beq_self_eq_true, if_true] at hih ⊢
        omega
      · have hcons : runWeatherApiCalls (t :: ts) l =
            (false :: (runWeatherApiCalls ts l).1,
             (runWeatherApiCalls ts l).2) := by
          rw [runWeatherApiCalls_cons, canMakeWeatherApiCall_denied t l ht (not_lt.mp hc)]
        rw [hcons]
        have hih := ih l (fun u hu => h u (by simp [hu]))
        simp only [List.count_cons] at hih ⊢
        simp at hih ⊢
        omega

/-- C9: the limiter grants at most 100 upstream calls per window
(starting from a reset counter, any sequence of acquires within the
window yields at most 100 grants); once the window elapses the counter
resets; and when the quota is exhausted inside the window, a weather
lookup returns the cached value even though its TTL has expired — with
an unchanged limiter and cache, showing no upstream call — or a MISS
(none) when nothing is cached. -/
theorem c9_rate_limiter_and_fallback (times : List Int)
    (lA lB lC : WeatherApiLimiter) (now : Int) (d : ℚ) (tsc : Int)
    (fetchOutcome : Except Unit (Option ℚ)) :
    (lA.calls = 0 → (∀ t ∈ times, t - lA.lastReset ≤ weatherApiWindow) →
        (runWeatherApiCalls times lA).1.count true ≤ 100) ∧
    (now - lB.lastReset > weatherApiWindow →
        canMakeWeatherApiCall now lB = (true, ⟨1, now⟩)) ∧
    (100 ≤ lC.calls → ¬ now - lC.lastReset > weatherApiWindow →
        now - tsc ≥ weatherCacheTtl →
        getCachedWeather now (some (d, tsc)) lC fetchOutcome =
          (some d, lC, some (d, tsc))) ∧
    (100 ≤ lC.calls → ¬ now - lC.lastReset > weatherApiWindow →
        getCachedWeather now none lC fetchOutcome = (none, lC, none)) := by
  refine ⟨?_, ?_, ?_, ?_⟩
  · intro h0 hw
    have hb := runWeatherApiCalls_grant_bound times lA hw
    rw [h0] at hb
    simpa [weatherApiLimit] using hb
  · exact canMakeWeatherApiCall_reset now lB
  · intro hcalls hnr hexp
    have hden := canMakeWeatherApiCall_denied now lC hnr
      (by simpa [weatherApiLimit] using hcalls)
    have hfresh : cachedFresh now (some (d, tsc)) = false := by
      simp only [cachedFresh, weatherCacheTtl] at *
      simp only [decide_eq_false_iff_not, not_lt]
      omega
    simp [getCachedWeather, hfresh, hden, cachedData]
  · intro hcalls hnr
    have hden := canMakeWeatherApiCall_denied now lC hnr
      (by simpa [weatherApiLimit] using hcalls)
    simp [getCachedWeather, cachedFresh, hden, cachedData]

/-- Witness for c9_rate_limiter_and_fallback: two acquires in a fresh
window, a reset after the window elapses, and rate-limited lookups with
an expired cache entry and with an empty cache. -/
theorem c9_rate_limiter_and_fallback_witness :
    (runWeatherApiCalls [0, 1] ⟨0, 0⟩).1.count true ≤ 100 ∧
    canMakeWeatherApiCall 7200000 ⟨7, 0⟩ = (true, ⟨1, 7200000⟩) ∧
    getCachedWeather 7200000 (some (25, 0)) ⟨100, 3600000⟩ (Except.ok none) =
      (some 25, ⟨100, 3600000⟩, some (25, 0)) ∧
    getCachedWeather 7200000 none ⟨100, 3600000⟩ (Except.ok none) =
      (none, ⟨100, 3600000⟩, none) :=
  ⟨(c9_rate_limiter_and_fallback [0, 1] ⟨0, 0⟩ ⟨7, 0⟩ ⟨100, 3600000⟩ 7200000
      25 0 (Except.ok none)).1 rfl (by decide),
   (c9_rate_limiter_and_fallback [0, 1] ⟨0, 0⟩ ⟨7, 0⟩ ⟨100, 3600000⟩ 7200000
      25 0 (Except.ok none)).2.1 (by decide),
   (c9_rate_limiter_and_fallback [0, 1] ⟨0, 0⟩ ⟨7, 0⟩ ⟨100, 3600000⟩ 7200000
      25 0 (Except.ok none)).2.2.1 (by decide) (by decide) (by decide),
   (c9_rate_limiter_and_fallback [0, 1] ⟨0, 0⟩ ⟨7, 0⟩ ⟨100, 3600000⟩ 7200000
      25 0 (Except.ok none)).2.2.2 (by decide) (by decide)⟩
